import Mathlib

/-!
Verification development for the ktx-srtgo session-aware reservation engine.

The definitions below are a shallow embedding of the Python sources
`ktxgo/korail.py` and `ktxgo/cli.py`:
pure functions become Lean functions, vendor JSON records become
association lists of string fields, the single-object-vs-list shape of
nested listings is normalized to `Option (List _)` (`none` models an
absent or non-dict field, mirroring the `isinstance` guards), network
calls become explicit oracle arguments, and raised `KorailError`s become
explicit error values.  Real time (sleeps, deadlines) is modelled by the
finite sequence of observations made before the deadline.
-/

/-- A vendor JSON record with string fields, as produced by
the normalization in `Train.from_schedule` (`str(key): str(value)`); `dict.get`
with a default becomes `itemGet`/`itemGetD`. -/
abbrev Item := List (String × String)

/-- Python `item.get(key)`: `some` value of the first binding of `key`,
`none` when the key is absent. -/
def itemGet (it : Item) (k : String) : Option String :=
  (it.find? (fun p => p.1 == k)).map (fun p => p.2)

/-- Python `item.get(key, d)`. -/
def itemGetD (it : Item) (k d : String) : String :=
  (itemGet it k).getD d

/-- Python `item.get(key, "")`, the pervasive idiom in the sources. -/
def itemGetS (it : Item) (k : String) : String :=
  itemGetD it k ""

/-- Python `"".join(ch for ch in str(value) if ch.isdigit())`
(`_digit_only` in `KorailAPI.pay`, `_digits_only` in the CLI). -/
def digitOnly (s : String) : String :=
  String.mk (s.data.filter Char.isDigit)

/-- Python `str.strip()`: drop whitespace from both ends. -/
def pyStrip (s : String) : String :=
  String.mk ((((s.data.dropWhile Char.isWhitespace).reverse).dropWhile
    Char.isWhitespace).reverse)

/-- Python `str.upper()`. -/
def pyUpper (s : String) : String :=
  String.mk (s.data.map Char.toUpper)

/-- Whether `needle` occurs at the start of `hay` (character lists). -/
def charsStartWith : List Char → List Char → Bool
  | _, [] => true
  | [], _ :: _ => false
  | h :: hs, n :: ns => h == n && charsStartWith hs ns

/-- Whether `needle` occurs somewhere inside `hay` (character lists). -/
def charsContain (needle : List Char) : List Char → Bool
  | [] => needle.isEmpty
  | h :: t => charsStartWith (h :: t) needle || charsContain needle t

/-- Python `needle in hay` on strings. -/
def strContains (hay needle : String) : Bool :=
  charsContain needle.data hay.data

/-- Constant `RSV_AVAILABLE` from `config.py`. -/
def RSV_AVAILABLE : String := "11"

/-- The `Train` dataclass from `korail.py` (fields used by the engine;
`raw` is the normalized schedule row the dataclass was built from). -/
structure Train where
  train_no : String
  train_type : String
  train_group : String
  departure : String
  arrival : String
  dep_time : String
  arr_time : String
  dep_date : String
  general_seat : String
  general_code : String
  special_seat : String
  special_code : String
  standing_seat : String
  waiting_seat : String
  waiting_code : String
  price : String
  raw : Item
deriving DecidableEq, Repr

/-- Property `Train.has_general`. -/
def Train.has_general (t : Train) : Bool :=
  t.general_code == RSV_AVAILABLE

/-- Property `Train.has_special`. -/
def Train.has_special (t : Train) : Bool :=
  t.special_code == RSV_AVAILABLE

/-- Property `Train.has_any_seat`. -/
def Train.has_any_seat (t : Train) : Bool :=
  t.has_general || t.has_special

/-- Property `Train.has_standing`: `raw.get("h_stnd_rsv_cd", "") == RSV_AVAILABLE`. -/
def Train.has_standing (t : Train) : Bool :=
  itemGetS t.raw "h_stnd_rsv_cd" == RSV_AVAILABLE

/-- Function `_seat_available` from `cli.py`. -/
def _seat_available (train : Train) (seat : String) : Bool :=
  if seat = "general" then train.has_general
  else if seat = "special" then train.has_special
  else if seat = "standing" then train.has_standing
  else train.has_any_seat

/-- Function `_pick_seat` from `cli.py`. -/
def _pick_seat (train : Train) (seat : String) : String :=
  if seat = "general" then "general"
  else if seat = "special" then "special"
  else if seat = "standing" then "general"
  else if train.has_general then "general"
  else "special"

/-- The seat-class request code computed at the top of `KorailAPI.reserve`:
`seat_code = "1" if seat_type == "general" else "2"` ("1" is the
general-class product code, "2" the special-class one). -/
def reserveSeatCode (seat_type : String) : String :=
  if seat_type = "general" then "1" else "2"

/-- Type alias `TrainKey` from `cli.py`. -/
abbrev TrainKey := String × String × String × String × String

/-- Function `_train_key` from `cli.py`. -/
def _train_key (t : Train) : TrainKey :=
  (t.dep_date, t.train_no, t.dep_time, t.departure, t.arrival)

/-- The dict comprehension `{_train_key(train): train for train in trains}`
looked up at `key`: on key collisions the later train wins, hence the
search through the reversed listing. -/
def trainByKey (trains : List Train) (k : TrainKey) : Option Train :=
  trains.reverse.find? (fun t => _train_key t == k)

/-- Function `_resolve_targets` from `cli.py`: walk the target keys of the caller in
order, emit the matching train when present, count the missing keys. -/
def _resolve_targets (trains : List Train) : List TrainKey → List Train × Nat
  | [] => ([], 0)
  | k :: ks =>
    let rest := _resolve_targets trains ks
    match trainByKey trains k with
    | none => (rest.1, rest.2 + 1)
    | some t => (t :: rest.1, rest.2)

/-- A login-check call: `_api_call` either raises a `KorailError`
(modelled as `Except.error` with the message) or returns the parsed
response record. -/
abbrev LoginResp := Except String Item

/-- The no-login test at the top of `KorailAPI.is_logged_in`:
`"로그인 정보가 없습니다" in msg or "로그인" in msg and "없" in msg`
(Python precedence: `A or (B and C)`), on the stripped `h_msg_txt`. -/
def noLoginMsg (data : Item) : Bool :=
  let msg := pyStrip (itemGetS data "h_msg_txt")
  strContains msg "로그인 정보가 없습니다" ||
    (strContains msg "로그인" && strContains msg "없")

/-- Python test `data.get("strResult") in` the set of SUCC, SUCCESS, Y: an absent key
yields `None`, which is not in the set. -/
def succPositive (data : Item) : Bool :=
  match itemGet data "strResult" with
  | some v => v == "SUCC" || v == "SUCCESS" || v == "Y"
  | none => false

/-- One step of the identity-credential loop in `is_logged_in`:
`value = str(data.get(key, "")).strip()` is positive when nonempty and
not a negative placeholder. -/
def identityPositive (data : Item) (k : String) : Bool :=
  let v := pyStrip (itemGetS data k)
  !(v == "") && !(v == "N" || v == "FALSE" || v == "0")

/-- One step of the dedicated login-flag loop in `is_logged_in`:
same test on the upper-cased stripped value of `loginYn` / `isLogin`. -/
def loginFlagPositive (data : Item) (k : String) : Bool :=
  let v := pyUpper (pyStrip (itemGetS data k))
  !(v == "") && !(v == "N" || v == "FALSE" || v == "0")

/-- Method `KorailAPI.is_logged_in`.  A raised `KorailError` from the probe is
caught and yields `false`.  The branch on `succPositive` mirrors the
source exactly: the for-loop over identity keys returns `True` on the
first positive credential, and the code after the loop also returns
`True` ("strResult=SUCC without negative msg — likely logged in"), so
both arms of the inner `if` are `true`. -/
def is_logged_in (resp : LoginResp) : Bool :=
  match resp with
  | .error _ => false
  | .ok data =>
    if noLoginMsg data then false
    else if succPositive data then
      if ["strMbCrdNo", "strCustNm", "mbCrdNo"].any (identityPositive data)
      then true
      else true
    else ["loginYn", "isLogin"].any (loginFlagPositive data)

/-- The authentication rule exactly as claim C1 words it (spec §4.1):
no no-login marker, and either (a) a positive success flag together with
at least one positive identity field, or (b) a positive dedicated
login flag.  Stated from the spec for comparison with `is_logged_in`. -/
def specAuthenticatedC1 (data : Item) : Bool :=
  !noLoginMsg data &&
    ((succPositive data &&
        ["strMbCrdNo", "strCustNm", "mbCrdNo"].any (identityPositive data)) ||
      ["loginYn", "isLogin"].any (loginFlagPositive data))

/-- The retry loop of `KorailAPI.wait_for_login_stable`, with the
sequence of `is_logged_in()` results observed before the deadline as an
explicit list: each element is one probe; running out of elements is the
`time.monotonic() >= deadline` exit, which returns `False`.  The loop
always makes at least one probe before consulting the deadline. -/
def waitLoop (required : Nat) (streak : Nat) : List Bool → Bool
  | [] => false
  | p :: rest =>
    if p then
      if required ≤ streak + 1 then true
      else if rest.isEmpty then false
      else waitLoop required (streak + 1) rest
    else if rest.isEmpty then false
    else waitLoop required 0 rest

/-- Method `KorailAPI.wait_for_login_stable`: `required = max(1, stable_checks)`
with `streak` starting at 0. -/
def wait_for_login_stable (stable_checks : Int) (probes : List Bool) : Bool :=
  waitLoop (max 1 stable_checks).toNat 0 probes

/-- Length of the leading run of `true`s in a probe sequence. -/
def leadCount : List Bool → Nat
  | [] => 0
  | p :: rest => if p then leadCount rest + 1 else 0

/-- Whether a probe sequence contains `n` consecutive `true` probes:
some suffix starts with at least `n` leading `true`s. -/
def hasTrueRun (n : Nat) : List Bool → Bool
  | [] => decide (n = 0)
  | p :: rest => decide (n ≤ leadCount (p :: rest)) || hasTrueRun n rest

/-- The mutable payment context threaded through the hydration chain of
`KorailAPI.pay` (`price`, `wct_no`, `rsv_chg_no`, `tmp_job_sqno1/2`). -/
structure PayCtx where
  price : String
  wct_no : String
  rsv_chg_no : String
  tmp_job_sqno1 : String
  tmp_job_sqno2 : String
deriving DecidableEq, Repr

/-- Python `(not price or price == "0")`: a numeric field is missing when
empty or literally zero. -/
def priceMissing (p : String) : Bool :=
  p == "" || p == "0"

/-- Python `tmp_job_sqno in {"", "000000"}`: a job sequence number is
missing when empty or the `"000000"` placeholder. -/
def sqnoMissing (s : String) : Bool :=
  s == "" || s == "000000"

/-- One `jrny_info` record inside a reservation payload: its scalar
fields plus the normalized `train_infos.train_info` sub-records
(`none` when `train_infos` is absent or not a dict). -/
structure JrnyItem where
  fields : Item
  train_infos : Option (List Item)
deriving DecidableEq, Repr

/-- A reservation-shaped payload as `pay` scans it: the top-level record
plus the normalized `jrny_infos.jrny_info` records (`none` when
`jrny_infos` is absent or not a dict).  The `_dict_items` single-object /
list / other shapes are normalized to the list. -/
structure PayPayload where
  top : Item
  jrny_infos : Option (List JrnyItem)
deriving DecidableEq, Repr

/-- Inner function `_hydrate_from_item` of `KorailAPI.pay`: fill each field still
missing from one record; with `require_pnr`, skip the record when its
embedded confirmation number is present and differs from `pnr_no`. -/
def _hydrate_from_item (pnr_no : String) (require_pnr : Bool)
    (c : PayCtx) (item : Item) : PayCtx :=
  let item_pnr := pyStrip (itemGetD item "h_pnr_no" (itemGetS item "hidPnrNo"))
  if require_pnr && !(item_pnr == "") && !(item_pnr == pnr_no) then c
  else
    let price :=
      if priceMissing c.price then
        ((["h_rsv_amt", "h_rcvd_amt", "hidPayAmount"].map
            (fun k => digitOnly (itemGetS item k))).find?
          (fun cand => !(cand == "") && !(cand == "0"))).getD c.price
      else c.price
    let wct_no :=
      if c.wct_no == "" then
        ((["h_wct_no", "hidWctNo"].map
            (fun k => pyStrip (itemGetS item k))).find?
          (fun cand => !(cand == ""))).getD c.wct_no
      else c.wct_no
    let rsv_chg_no :=
      if c.rsv_chg_no == "" then
        ((["h_rsv_chg_no", "hidRsvChgNo"].map
            (fun k => pyStrip (itemGetS item k))).find?
          (fun cand => !(cand == ""))).getD c.rsv_chg_no
      else c.rsv_chg_no
    let tmp_job_sqno1 :=
      if sqnoMissing c.tmp_job_sqno1 then
        let cand := pyStrip (itemGetS item "h_tmp_job_sqno1")
        if !(cand == "") then cand else c.tmp_job_sqno1
      else c.tmp_job_sqno1
    let tmp_job_sqno2 :=
      if sqnoMissing c.tmp_job_sqno2 then
        let cand := pyStrip (itemGetS item "h_tmp_job_sqno2")
        if !(cand == "") then cand else c.tmp_job_sqno2
      else c.tmp_job_sqno2
    ⟨price, wct_no, rsv_chg_no, tmp_job_sqno1, tmp_job_sqno2⟩

/-- Inner function `_hydrate_from_payload` of `KorailAPI.pay`: optionally scan the
top-level record, then every `jrny_info` record, then every nested
`train_info` record (the latter with the confirmation-number match). -/
def _hydrate_from_payload (pnr_no : String) (include_top_level : Bool)
    (c : PayCtx) (data : PayPayload) : PayCtx :=
  let c := if include_top_level then _hydrate_from_item pnr_no false c data.top else c
  match data.jrny_infos with
  | none => c
  | some jrnys =>
    jrnys.foldl
      (fun c jrny =>
        let c := _hydrate_from_item pnr_no false c jrny.fields
        match jrny.train_infos with
        | none => c
        | some trains => trains.foldl (_hydrate_from_item pnr_no true) c)
      c

/-- The initial context read from `reserve_result` at the top of `pay`:
`wct_no` unstripped, `rsv_chg_no` with the `hidRsvChgNo` fallback and a
strip, job sequence numbers defaulting to `"000000"`, price empty. -/
def initPayCtx (top : Item) : PayCtx :=
  { price := ""
    wct_no := itemGetS top "h_wct_no"
    rsv_chg_no := pyStrip (itemGetD top "h_rsv_chg_no" (itemGetS top "hidRsvChgNo"))
    tmp_job_sqno1 := itemGetD top "h_tmp_job_sqno1" "000000"
    tmp_job_sqno2 := itemGetD top "h_tmp_job_sqno2" "000000" }

/-- The `need_context` condition of `pay` (checked before each of the two
fallback queries): some context field is still missing. -/
def needContext (c : PayCtx) : Bool :=
  priceMissing c.price || c.wct_no == "" || c.rsv_chg_no == "" ||
    sqnoMissing c.tmp_job_sqno1 || sqnoMissing c.tmp_job_sqno2

/-- The context after stage (1): scanning `reserve_result` itself,
including its nested per-leg / per-train records. -/
def payStage1Ctx (rr : PayPayload) : PayCtx :=
  _hydrate_from_payload (itemGetS rr.top "h_pnr_no") true (initPayCtx rr.top) rr

/-- Result of one `_api_call` to a fallback endpoint: the parsed payload,
or the message of the raised `KorailError`. -/
inductive ApiResp where
  | ok (payload : PayPayload)
  | err (msg : String)
deriving DecidableEq, Repr

/-- Outcome of `pay`: success, or the message of the raised `KorailError`. -/
inductive PayOutcome where
  | ok
  | err (msg : String)
deriving DecidableEq, Repr

/-- Observable behaviour of one `pay` call: which fallback endpoints were
queried (`ReservationList` keyed by the confirmation number, then the
unkeyed `ReservationView`), whether the final payment request was issued,
and the outcome. -/
structure KPayResult where
  detailQueried : Bool
  viewQueried : Bool
  payRequested : Bool
  outcome : PayOutcome
deriving DecidableEq, Repr

/-- The tail of `pay` after all hydration: fail without a payment request
when the amount or the `h_wct_no` key is still unresolved, otherwise
issue the payment request. -/
def payFinish (dq vq : Bool) (c : PayCtx) : KPayResult :=
  if priceMissing c.price then
    ⟨dq, vq, false, .err "Unable to determine payment amount."⟩
  else if c.wct_no == "" then
    ⟨dq, vq, false, .err "Unable to determine payment key (h_wct_no)."⟩
  else ⟨dq, vq, true, .ok⟩

/-- Stage (3) of `pay`: if context is still missing, query the
reservation-overview endpoint and rescan without the top-level record. -/
def payStage3 (pnr_no : String) (dq : Bool) (c : PayCtx)
    (viewResp : ApiResp) : KPayResult :=
  if needContext c then
    match viewResp with
    | .err m => ⟨dq, true, false, .err m⟩
    | .ok vp => payFinish dq true (_hydrate_from_payload pnr_no false c vp)
  else payFinish dq false c

/-- Method `KorailAPI.pay`, with the two fallback network calls passed in as
oracles (`detailResp` for `ReservationList`, `viewResp` for
`ReservationView`).  The card parameters do not influence which
requests are issued and are omitted. -/
def pay (rr : PayPayload) (detailResp viewResp : ApiResp) : KPayResult :=
  let pnr_no := itemGetS rr.top "h_pnr_no"
  if pnr_no == "" then
    ⟨false, false, false, .err "Missing reservation number (h_pnr_no)."⟩
  else
    let c1 := _hydrate_from_payload pnr_no true (initPayCtx rr.top) rr
    if needContext c1 then
      match detailResp with
      | .err m => ⟨true, false, false, .err m⟩
      | .ok dp => payStage3 pnr_no true (_hydrate_from_payload pnr_no true c1 dp) viewResp
    else payStage3 pnr_no false c1 viewResp

/-- The context after all three hydration stages, when both fallback
calls succeed with payloads `dp` and `vp`. -/
def payFinalCtx (rr dp vp : PayPayload) : PayCtx :=
  let pnr_no := itemGetS rr.top "h_pnr_no"
  let c1 := _hydrate_from_payload pnr_no true (initPayCtx rr.top) rr
  let c2 := if needContext c1 then _hydrate_from_payload pnr_no true c1 dp else c1
  if needContext c2 then _hydrate_from_payload pnr_no false c2 vp else c2

/-- Constant `_SESSION_EXPIRED_CODES` from `cli.py`. -/
def sessionExpiredCodes : List String := ["P058", "WRT300004", "WRD000003"]

/-- Search outcome of one iteration in the polling loop of `main`
(`cli.py`): either `api.search` raised a `KorailError` with the given
vendor code, or it succeeded; for a successful search, `found` abstracts
the candidate-processing section to its control-flow effect — `true`
when a reservation attempt succeeded (the loop returns), `false` for
every continuing path (empty listing, no matching target, no eligible
seat, or rejected reservation attempts), all of which sleep the normal
poll interval and continue. -/
inductive SearchResult where
  | success (found : Bool)
  | failure (code : String)
deriving DecidableEq, Repr

/-- Observable side effects of the polling loop, in order: a call to
`api.search`, a re-authentication, a sleep of `POLL_INTERVAL_S`, or a
backoff sleep of `POLL_INTERVAL_S * 2`. -/
inductive LoopEvent where
  | searched
  | reauthed
  | sleptNormal
  | sleptBackoff
deriving DecidableEq, Repr

/-- How a run of the polling loop ended: the attempt budget was
exhausted (`while` condition false), `sys.exit(1)` after too many
consecutive errors, a successful reservation (`return`), or the supplied
outcome script ran out while the loop would have kept polling. -/
inductive LoopExit where
  | budget
  | fatal
  | reservedDone
  | scriptEnd
deriving DecidableEq, Repr

/-- Trace of one run of the polling loop: the events it emitted, how it
ended, and the final `attempt` / `consecutive_errors` counters. -/
structure LoopRun where
  events : List LoopEvent
  exit : LoopExit
  attempts : Nat
  errors : Nat
deriving DecidableEq, Repr

/-- The polling loop of `main` (`cli.py` lines 1093–1174), driven by a
finite script of search outcomes.  Each iteration first checks
`max_attempts == 0 or attempt < max_attempts`, then increments
`attempt`, then searches.  A failure increments `consecutive_errors`;
a session-expired code re-authenticates and continues (the increment is
kept), any other code exits fatally once the counter reaches 5 and
otherwise sleeps the doubled interval; a successful search resets the
counter to 0. -/
def pollLoop (max_attempts : Nat) : Nat → Nat → List SearchResult → LoopRun
  | attempt, errors, [] =>
    if max_attempts = 0 ∨ attempt < max_attempts then
      ⟨[], .scriptEnd, attempt, errors⟩
    else ⟨[], .budget, attempt, errors⟩
  | attempt, errors, .failure code :: rest =>
    if max_attempts = 0 ∨ attempt < max_attempts then
      if code ∈ sessionExpiredCodes then
        let sub := pollLoop max_attempts (attempt + 1) (errors + 1) rest
        ⟨.searched :: .reauthed :: sub.events, sub.exit, sub.attempts, sub.errors⟩
      else if 5 ≤ errors + 1 then
        ⟨[.searched], .fatal, attempt + 1, errors + 1⟩
      else
        let sub := pollLoop max_attempts (attempt + 1) (errors + 1) rest
        ⟨.searched :: .sleptBackoff :: sub.events, sub.exit, sub.attempts, sub.errors⟩
    else ⟨[], .budget, attempt, errors⟩
  | attempt, errors, .success true :: _ =>
    if max_attempts = 0 ∨ attempt < max_attempts then
      ⟨[.searched], .reservedDone, attempt + 1, 0⟩
    else ⟨[], .budget, attempt, errors⟩
  | attempt, errors, .success false :: rest =>
    if max_attempts = 0 ∨ attempt < max_attempts then
      let sub := pollLoop max_attempts (attempt + 1) 0 rest
      ⟨.searched :: .sleptNormal :: sub.events, sub.exit, sub.attempts, sub.errors⟩
    else ⟨[], .budget, attempt, errors⟩

/-- Number of `api.search` calls recorded in an event trace. -/
def searchedCount (events : List LoopEvent) : Nat :=
  events.countP (fun ev => decide (ev = .searched))

/-- A reservation payload whose payable amount and `h_wct_no` appear only
inside a nested `train_info` leg carrying the own
confirmation number — the scenario of the stage-(1) hydration claim. -/
def rrC2 : PayPayload :=
  { top := [("h_pnr_no", "123")]
    jrny_infos := some
      [{ fields := []
         train_infos := some
           [[("h_pnr_no", "123"), ("h_rsv_amt", "5000"), ("h_wct_no", "W1")]] }] }

/-- Like `rrC2`, but the nested matching leg also carries the
change-sequence number and both job sequence numbers, so stage (1)
resolves the whole payment context. -/
def rrC2full : PayPayload :=
  { top := [("h_pnr_no", "123")]
    jrny_infos := some
      [{ fields := []
         train_infos := some
           [[("h_pnr_no", "123"), ("h_rsv_amt", "5000"), ("h_wct_no", "W1"),
             ("h_rsv_chg_no", "001"), ("h_tmp_job_sqno1", "000001"),
             ("h_tmp_job_sqno2", "000002")]] }] }

/-- A reservation payload carrying only a confirmation number: no usable
amount or key anywhere. -/
def rr4 : PayPayload := { top := [("h_pnr_no", "9")], jrny_infos := none }

/-- An empty fallback-endpoint response. -/
def emptyPayload : PayPayload := { top := [], jrny_infos := none }

/-- A sample train with an available general seat. -/
def trainA : Train :=
  { train_no := "101", train_type := "KTX", train_group := "KTX"
    departure := "SEL", arrival := "BSN"
    dep_time := "060000", arr_time := "083000", dep_date := "20251012"
    general_seat := "OK", general_code := "11"
    special_seat := "", special_code := "13"
    standing_seat := "", waiting_seat := "", waiting_code := ""
    price := "59800", raw := [] }

/-- A second sample train with a different identity tuple. -/
def trainB : Train :=
  { train_no := "103", train_type := "KTX", train_group := "KTX"
    departure := "SEL", arrival := "BSN"
    dep_time := "070000", arr_time := "093000", dep_date := "20251012"
    general_seat := "", general_code := "13"
    special_seat := "OK", special_code := "11"
    standing_seat := "", waiting_seat := "", waiting_code := ""
    price := "59800", raw := [] }

/-! Helper lemmas, then one theorem per claim. -/

theorem trainByKey_mem {trains : List Train} {k : TrainKey} {t : Train}
    (h : trainByKey trains k = some t) : t ∈ trains := by
  have := List.mem_of_find?_eq_some h
  exact List.mem_reverse.mp this

theorem trainByKey_none_iff (trains : List Train) (k : TrainKey) :
    trainByKey trains k = none ↔ ∀ t ∈ trains, _train_key t ≠ k := by
  unfold trainByKey
  rw [List.find?_eq_none]
  constructor
  · intro h t ht
    have := h t (List.mem_reverse.mpr ht)
    simpa using this
  · intro h t ht
    have := h t (List.mem_reverse.mp ht)
    simpa using this

theorem resolve_found_eq (trains : List Train) :
    ∀ targets : List TrainKey,
      (_resolve_targets trains targets).1 = targets.filterMap (trainByKey trains) := by
  intro targets
  induction targets with
  | nil => rfl
  | cons k ks ih =>
    simp only [_resolve_targets, List.filterMap_cons]
    cases h : trainByKey trains k <;> simp [h, ih]

theorem resolve_missing_eq (trains : List Train) :
    ∀ targets : List TrainKey,
      (_resolve_targets trains targets).2 =
        targets.countP (fun k => (trainByKey trains k).isNone) := by
  intro targets
  induction targets with
  | nil => rfl
  | cons k ks ih =>
    simp only [_resolve_targets, List.countP_cons]
    cases h : trainByKey trains k <;> simp [h, ih, Option.isNone]

/-- C6: for every train, eligibility under the "any" preference is the
disjunction of eligibility under "general" and under "special"
(`_seat_available` in `cli.py`, `Train.has_any_seat` in `korail.py`). -/
theorem seat_available_any_or (t : Train) :
    _seat_available t "any" =
      (_seat_available t "general" || _seat_available t "special") := rfl

/-- C7: `_pick_seat` maps the general and special preferences to
themselves, maps standing to the general seat class (whose reservation
request code in `KorailAPI.reserve` is the general-class "1"), and maps
"any" to general when the general seat of the train is available and to
special otherwise. -/
theorem pick_seat_spec (t : Train) :
    _pick_seat t "general" = "general" ∧
    _pick_seat t "special" = "special" ∧
    _pick_seat t "standing" = "general" ∧
    reserveSeatCode (_pick_seat t "standing") = "1" ∧
    _pick_seat t "any" = (if t.has_general then "general" else "special") := by
  refine ⟨rfl, rfl, rfl, rfl, rfl⟩

/-- C8: `_resolve_targets` returns the matched trains in the original
target order of the caller (the listing lookup applied to the target keys in
sequence), reports as missing exactly the target keys under which no
train of the listing occurs, and lookup by the same key twice from a
given listing yields the same train both times. -/
theorem resolve_targets_order_missing_idempotent :
    (∀ (trains : List Train) (targets : List TrainKey),
      (_resolve_targets trains targets).1 = targets.filterMap (trainByKey trains)) ∧
    (∀ (trains : List Train) (targets : List TrainKey),
      (_resolve_targets trains targets).2 =
        targets.countP (fun k => (trainByKey trains k).isNone)) ∧
    (∀ (trains : List Train) (k : TrainKey),
      trainByKey trains k = none ↔ ∀ t ∈ trains, _train_key t ≠ k) ∧
    (∀ (trains : List Train) (k : TrainKey) (ks : List TrainKey) (t : Train),
      trainByKey trains k = some t →
      (_resolve_targets trains (k :: k :: ks)).1 =
        t :: t :: (_resolve_targets trains ks).1) := by
  refine ⟨resolve_found_eq, resolve_missing_eq, trainByKey_none_iff, ?_⟩
  intro trains k ks t h
  simp [_resolve_targets, h]

/-- Witness for C8 at a concrete listing and key. -/
theorem resolve_targets_order_missing_idempotent_witness :
    (_resolve_targets [trainA, trainB]
        [_train_key trainA, _train_key trainA]).1 = [trainA, trainA] := by
  rw [resolve_targets_order_missing_idempotent.2.2.2 [trainA, trainB]
    (_train_key trainA) [] trainA (by decide)]
  rfl

/-- C9: the number of returned trains plus the reported missing count
equals the number of target keys, and every returned train is an element
of the input listing.  The embedding is a pure function, so the input
listing and target-key list are returned unchanged by construction. -/
theorem resolve_targets_invariants (trains : List Train) (targets : List TrainKey) :
    (_resolve_targets trains targets).1.length + (_resolve_targets trains targets).2 =
      targets.length ∧
    ∀ t, t ∈ (_resolve_targets trains targets).1 → t ∈ trains := by
  constructor
  · induction targets with
    | nil => rfl
    | cons k ks ih =>
      simp only [_resolve_targets]
      cases h : trainByKey trains k <;> simp <;> omega
  · intro t ht
    rw [resolve_found_eq] at ht
    obtain ⟨k, _, hk⟩ := List.mem_filterMap.mp ht
    exact trainByKey_mem hk

/-- Witness for C9 at a concrete listing and target list. -/
theorem resolve_targets_invariants_witness :
    (_resolve_targets [trainA] [_train_key trainA]).1.length +
        (_resolve_targets [trainA] [_train_key trainA]).2 = 1 ∧
    trainA ∈ [trainA] :=
  ⟨(resolve_targets_invariants [trainA] [_train_key trainA]).1,
   (resolve_targets_invariants [trainA] [_train_key trainA]).2 trainA (by decide)⟩

/-- C1 counterexample: a login-check response whose success flag is
positive, whose message lacks the no-login marker, and which carries no
identity field at all.  The claim says `is_logged_in` yields `false`
here; the code returns `true` (the "strResult=SUCC without negative msg"
fallthrough), so the compound rule `specAuthenticatedC1` of the claim
disagrees with the implementation at this input. -/
theorem is_logged_in_claim_counterexample :
    is_logged_in (Except.ok [("strResult", "SUCC")]) = true ∧
    specAuthenticatedC1 [("strResult", "SUCC")] = false := by
  constructor <;> decide

/-- C1 amended: `is_logged_in` returns `true` exactly when the message
lacks the no-login marker and either the success flag is positive
(regardless of whether any identity field is present) or a dedicated
login-flag field is positive; a failed probe yields `false`. -/
theorem is_logged_in_compound_rule :
    (∀ data : Item,
      is_logged_in (Except.ok data) =
        (!noLoginMsg data &&
          (succPositive data || ["loginYn", "isLogin"].any (loginFlagPositive data)))) ∧
    (∀ msg : String, is_logged_in (Except.error msg) = false) := by
  constructor
  · intro data
    unfold is_logged_in
    cases h1 : noLoginMsg data <;> cases h2 : succPositive data <;> simp [h1, h2]
  · intro msg
    rfl

theorem waitLoop_false_head (required streak : Nat) (rest : List Bool) :
    waitLoop required streak (false :: rest) = waitLoop required 0 rest := by
  cases rest <;> simp [waitLoop]

theorem waitLoop_sound (required : Nat) :
    ∀ (ps : List Bool) (streak : Nat), waitLoop required streak ps = true →
      required ≤ streak + leadCount ps ∨ hasTrueRun required ps = true := by
  intro ps
  induction ps with
  | nil => intro s h; simp [waitLoop] at h
  | cons p rest ih =>
    intro s h
    cases p with
    | true =>
      have hlc : leadCount (true :: rest) = leadCount rest + 1 := rfl
      by_cases hle : required ≤ s + 1
      · left; omega
      · cases rest with
        | nil => simp [waitLoop, hle] at h
        | cons q t =>
          have h' : waitLoop required (s + 1) (q :: t) = true := by
            simpa [waitLoop, hle] using h
          have hrun : hasTrueRun required (true :: q :: t) =
              (decide (required ≤ leadCount (true :: q :: t)) ||
                hasTrueRun required (q :: t)) := rfl
          rcases ih (s + 1) h' with h2 | h2
          · left; omega
          · right; rw [hrun, h2, Bool.or_true]
    | false =>
      rw [waitLoop_false_head] at h
      cases rest with
      | nil => simp [waitLoop] at h
      | cons q t =>
        have hrun : hasTrueRun required (false :: q :: t) =
            (decide (required ≤ leadCount (false :: q :: t)) ||
              hasTrueRun required (q :: t)) := rfl
        have hrun2 : hasTrueRun required (q :: t) =
            (decide (required ≤ leadCount (q :: t)) ||
              hasTrueRun required t) := rfl
        rcases ih 0 h with h2 | h2
        · right
          have hd : decide (required ≤ leadCount (q :: t)) = true := by
            simp only [decide_eq_true_eq]; omega
          rw [hrun, hrun2, hd, Bool.true_or, Bool.or_true]
        · right; rw [hrun, h2, Bool.or_true]

theorem waitLoop_reaches (required : Nat) :
    ∀ (ps : List Bool) (streak : Nat), 1 ≤ leadCount ps →
      required ≤ streak + leadCount ps → waitLoop required streak ps = true := by
  intro ps
  induction ps with
  | nil => intro s h1 h2; simp [leadCount] at h1
  | cons p rest ih =>
    intro s h1 h2
    cases p with
    | false => simp [leadCount] at h1
    | true =>
      cases rest with
      | nil =>
        have : required ≤ s + 1 := by simp only [leadCount] at h2; simpa using h2
        simp [waitLoop, this]
      | cons q t =>
        by_cases hle : required ≤ s + 1
        · simp [waitLoop, hle]
        · have hlc : leadCount (true :: q :: t) = leadCount (q :: t) + 1 := by
            simp [leadCount]
          have h3 : 1 ≤ leadCount (q :: t) := by omega
          have h4 : required ≤ (s + 1) + leadCount (q :: t) := by omega
          simp only [waitLoop, if_true, if_neg hle, List.isEmpty_cons,
            Bool.false_eq_true, if_false]
          exact ih (s + 1) h3 h4

theorem waitLoop_complete (required : Nat) (hreq : 1 ≤ required) :
    ∀ (ps : List Bool) (streak : Nat), hasTrueRun required ps = true →
      waitLoop required streak ps = true := by
  intro ps
  induction ps with
  | nil =>
    intro s h
    simp only [hasTrueRun, decide_eq_true_eq] at h
    omega
  | cons p rest ih =>
    intro s h
    simp only [hasTrueRun, Bool.or_eq_true, decide_eq_true_eq] at h
    rcases h with h | h
    · exact waitLoop_reaches required (p :: rest) s (le_trans hreq h) (by omega)
    · cases p with
      | false =>
        rw [waitLoop_false_head]
        cases rest with
        | nil => simp only [hasTrueRun, decide_eq_true_eq] at h; omega
        | cons q t => exact ih 0 h
      | true =>
        by_cases hle : required ≤ s + 1
        · simp [waitLoop, hle]
        · cases rest with
          | nil => simp only [hasTrueRun, decide_eq_true_eq] at h; omega
          | cons q t =>
            simp only [waitLoop, if_true, if_neg hle, List.isEmpty_cons,
              Bool.false_eq_true, if_false]
            exact ih (s + 1) h

/-- C10: `wait_for_login_stable` returns true exactly when the probe
sequence observed before the deadline contains at least
`max(1, stable_checks)` consecutive authenticated probes (so with the
probes exhausted — the deadline elapsed — without such a streak it
returns false, and it is a total function, never an exception); and a
single negative probe resets the streak, making the prior streak value
irrelevant. -/
theorem wait_for_login_stable_spec :
    (∀ (stable_checks : Int) (probes : List Bool),
      wait_for_login_stable stable_checks probes =
        hasTrueRun (max 1 stable_checks).toNat probes) ∧
    (∀ (required streak : Nat) (rest : List Bool),
      waitLoop required streak (false :: rest) = waitLoop required 0 rest) := by
  constructor
  · intro sc probes
    have hreq : 1 ≤ (max 1 sc).toNat := by
      have h1 : (1 : Int) ≤ max 1 sc := le_max_left 1 sc
      omega
    unfold wait_for_login_stable
    rw [Bool.eq_iff_iff]
    constructor
    · intro hw
      rcases waitLoop_sound _ probes 0 hw with h | h
      · cases probes with
        | nil => simp [waitLoop] at hw
        | cons p rest =>
          simp only [hasTrueRun, Bool.or_eq_true, decide_eq_true_eq]
          left
          omega
      · exact h
    · intro hh
      exact waitLoop_complete _ hreq probes 0 hh
  · exact waitLoop_false_head

theorem searchedCount_nil : searchedCount [] = 0 := rfl

theorem searchedCount_searched (evs : List LoopEvent) :
    searchedCount (LoopEvent.searched :: evs) = searchedCount evs + 1 := by
  simp [searchedCount, List.countP_cons]

theorem searchedCount_reauthed (evs : List LoopEvent) :
    searchedCount (LoopEvent.reauthed :: evs) = searchedCount evs := by
  simp [searchedCount, List.countP_cons]

theorem searchedCount_sleptNormal (evs : List LoopEvent) :
    searchedCount (LoopEvent.sleptNormal :: evs) = searchedCount evs := by
  simp [searchedCount, List.countP_cons]

theorem searchedCount_sleptBackoff (evs : List LoopEvent) :
    searchedCount (LoopEvent.sleptBackoff :: evs) = searchedCount evs := by
  simp [searchedCount, List.countP_cons]

theorem pollLoop_searched_le (N : Nat) (hN : N ≠ 0) :
    ∀ (script : List SearchResult) (attempt errors : Nat),
      searchedCount (pollLoop N attempt errors script).events ≤ N - attempt := by
  intro script
  induction script with
  | nil =>
    intro a e
    by_cases h : N = 0 ∨ a < N <;> simp [pollLoop, h, searchedCount]
  | cons r rest ih =>
    intro a e
    cases r with
    | failure code =>
      by_cases h : N = 0 ∨ a < N
      · have ha : a < N := h.resolve_left hN
        by_cases hc : code ∈ sessionExpiredCodes
        · have hsub := ih (a + 1) (e + 1)
          simp only [pollLoop, h, hc, if_true, ite_true]
          rw [searchedCount_searched, searchedCount_reauthed]
          omega
        · by_cases h5 : 5 ≤ e + 1
          · simp only [pollLoop, h, hc, h5, if_true, ite_true, if_false, ite_false]
            rw [searchedCount_searched, searchedCount_nil]
            omega
          · have hsub := ih (a + 1) (e + 1)
            simp only [pollLoop, h, hc, h5, if_true, ite_true, if_false, ite_false]
            rw [searchedCount_searched, searchedCount_sleptBackoff]
            omega
      · simp [pollLoop, h, searchedCount]
    | success found =>
      by_cases h : N = 0 ∨ a < N
      · have ha : a < N := h.resolve_left hN
        cases found with
        | true =>
          simp only [pollLoop, h, if_true, ite_true]
          rw [searchedCount_searched, searchedCount_nil]
          omega
        | false =>
          have hsub := ih (a + 1) 0
          simp only [pollLoop, h, if_true, ite_true]
          rw [searchedCount_searched, searchedCount_sleptNormal]
          omega
      · cases found <;> simp [pollLoop, h, searchedCount]

theorem pollLoop_unbounded :
    ∀ (script : List SearchResult) (attempt errors : Nat),
      (pollLoop 0 attempt errors script).exit ≠ LoopExit.budget := by
  intro script
  induction script with
  | nil => intro a e; simp [pollLoop]
  | cons r rest ih =>
    intro a e
    cases r with
    | failure code =>
      by_cases hc : code ∈ sessionExpiredCodes
      · simpa [pollLoop, hc] using ih (a + 1) (e + 1)
      · by_cases h5 : 5 ≤ e + 1
        · simp [pollLoop, hc, h5]
        · simpa [pollLoop, hc, h5] using ih (a + 1) (e + 1)
    | success found =>
      cases found with
      | true => simp [pollLoop]
      | false => simpa [pollLoop] using ih (a + 1) 0

/-- C3 counterexample: with an attempt budget of 1, a first iteration
whose search fails with session-expired code "P058" consumes the whole
budget — the loop re-authenticates but then exits on the budget check
with only one search issued and zero successful searches, even though
the script still holds a successful search.  The claim says such an
iteration is retried without being counted as a poll attempt. -/
theorem poll_session_expired_counts_counterexample :
    pollLoop 1 0 0 [SearchResult.failure "P058", SearchResult.success false] =
      ⟨[LoopEvent.searched, LoopEvent.reauthed], LoopExit.budget, 1, 1⟩ ∧
    searchedCount (pollLoop 1 0 0
      [SearchResult.failure "P058", SearchResult.success false]).events = 1 := by
  constructor <;> decide

/-- C3 amended: every iteration — successful, transient-failing or
session-expired — increments the attempt counter before the search, so
with a caller-specified maximum N > 0 the loop issues at most N search
calls in total; N = 0 means the budget never terminates the loop. -/
theorem poll_attempt_budget :
    (∀ (N : Nat) (script : List SearchResult), N ≠ 0 →
      searchedCount (pollLoop N 0 0 script).events ≤ N) ∧
    (∀ (script : List SearchResult) (attempt errors : Nat),
      (pollLoop 0 attempt errors script).exit ≠ LoopExit.budget) := by
  constructor
  · intro N script hN
    have := pollLoop_searched_le N hN script 0 0
    omega
  · exact pollLoop_unbounded

/-- Witness for the amended C3 theorem at a concrete budget and script. -/
theorem poll_attempt_budget_witness :
    searchedCount (pollLoop 3 0 0 [SearchResult.success false]).events ≤ 3 ∧
    (pollLoop 0 0 0 []).exit ≠ LoopExit.budget :=
  ⟨poll_attempt_budget.1 3 [SearchResult.success false] (by decide),
   poll_attempt_budget.2 [] 0 0⟩

/-- C5: while the loop is running, a search failure with a
non-session-expired code increments the consecutive-error counter and,
when the counter is still below 5, is followed by a backoff sleep of
twice the poll interval before the loop continues with the incremented
counter; once the incremented counter reaches 5 the loop stops
immediately with a fatal exit; and a successful search continues with
the counter reset to 0 after a normal-interval sleep. -/
theorem poll_transient_backoff_fatal_reset :
    (∀ (N a e : Nat) (code : String) (rest : List SearchResult),
      code ∉ sessionExpiredCodes → (N = 0 ∨ a < N) → e + 1 < 5 →
      pollLoop N a e (SearchResult.failure code :: rest) =
        ⟨LoopEvent.searched :: LoopEvent.sleptBackoff ::
            (pollLoop N (a + 1) (e + 1) rest).events,
          (pollLoop N (a + 1) (e + 1) rest).exit,
          (pollLoop N (a + 1) (e + 1) rest).attempts,
          (pollLoop N (a + 1) (e + 1) rest).errors⟩) ∧
    (∀ (N a e : Nat) (code : String) (rest : List SearchResult),
      code ∉ sessionExpiredCodes → (N = 0 ∨ a < N) → 5 ≤ e + 1 →
      pollLoop N a e (SearchResult.failure code :: rest) =
        ⟨[LoopEvent.searched], LoopExit.fatal, a + 1, e + 1⟩) ∧
    (∀ (N a e : Nat) (rest : List SearchResult), (N = 0 ∨ a < N) →
      pollLoop N a e (SearchResult.success false :: rest) =
        ⟨LoopEvent.searched :: LoopEvent.sleptNormal ::
            (pollLoop N (a + 1) 0 rest).events,
          (pollLoop N (a + 1) 0 rest).exit,
          (pollLoop N (a + 1) 0 rest).attempts,
          (pollLoop N (a + 1) 0 rest).errors⟩) := by
  refine ⟨?_, ?_, ?_⟩
  · intro N a e code rest hc h h5
    simp [pollLoop, h, hc, Nat.not_le.mpr h5]
  · intro N a e code rest hc h h5
    simp [pollLoop, h, hc, h5]
  · intro N a e rest h
    simp [pollLoop, h]

/-- Witness for C5 at concrete counters and scripts. -/
theorem poll_transient_backoff_fatal_reset_witness :
    pollLoop 0 0 0 [SearchResult.failure "E99"] =
      ⟨[LoopEvent.searched, LoopEvent.sleptBackoff], LoopExit.scriptEnd, 1, 1⟩ ∧
    pollLoop 0 0 4 [SearchResult.failure "E99"] =
      ⟨[LoopEvent.searched], LoopExit.fatal, 1, 5⟩ ∧
    pollLoop 0 0 3 [SearchResult.success false] =
      ⟨[LoopEvent.searched, LoopEvent.sleptNormal], LoopExit.scriptEnd, 1, 0⟩ := by
  refine ⟨?_, ?_, ?_⟩
  · rw [poll_transient_backoff_fatal_reset.1 0 0 0 "E99" [] (by decide)
      (Or.inl rfl) (by decide)]
    decide
  · exact poll_transient_backoff_fatal_reset.2.1 0 0 4 "E99" [] (by decide)
      (Or.inl rfl) (by decide)
  · rw [poll_transient_backoff_fatal_reset.2.2 0 0 3 [] (Or.inl rfl)]
    decide

theorem payFinish_incomplete (dq vq : Bool) (c : PayCtx)
    (h : priceMissing c.price = true ∨ c.wct_no = "") :
    (payFinish dq vq c).payRequested = false ∧
    ∃ m, (payFinish dq vq c).outcome = PayOutcome.err m := by
  rcases h with h | h
  · refine ⟨?_, "Unable to determine payment amount.", ?_⟩ <;>
      simp [payFinish, h]
  · by_cases hp : priceMissing c.price = true
    · refine ⟨?_, "Unable to determine payment amount.", ?_⟩ <;>
        simp [payFinish, hp]
    · refine ⟨?_, "Unable to determine payment key (h_wct_no).", ?_⟩ <;>
        simp [payFinish, hp, h]

theorem pay_ok_eq (rr dp vp : PayPayload)
    (hpnr : itemGetS rr.top "h_pnr_no" ≠ "") :
    ∃ dq vq, pay rr (ApiResp.ok dp) (ApiResp.ok vp) =
      payFinish dq vq (payFinalCtx rr dp vp) := by
  have hb : (itemGetS rr.top "h_pnr_no" == "") = false := by
    simpa using hpnr
  simp only [pay, payStage3, payFinalCtx, hb, Bool.false_eq_true, if_false,
    ite_false]
  by_cases h1 : needContext (_hydrate_from_payload (itemGetS rr.top "h_pnr_no")
      true (initPayCtx rr.top) rr) = true
  · simp only [h1, if_true, ite_true]
    by_cases h2 : needContext (_hydrate_from_payload (itemGetS rr.top "h_pnr_no")
        true (_hydrate_from_payload (itemGetS rr.top "h_pnr_no") true
          (initPayCtx rr.top) rr) dp) = true
    · simp only [h2, if_true, ite_true]
      exact ⟨true, true, rfl⟩
    · simp only [h2, Bool.false_eq_true, if_false, ite_false]
      exact ⟨true, false, rfl⟩
  · simp only [h1, Bool.false_eq_true, if_false, ite_false]
    exact ⟨false, false, rfl⟩

/-- C4: if after all three hydration stages the payable amount is still
empty or zero, or the internal transaction key `h_wct_no` is still
empty, `pay` fails with a classified error and issues no payment
request; the embedding is pure, so the reservation itself is untouched. -/
theorem pay_incomplete_no_request (rr dp vp : PayPayload)
    (hpnr : itemGetS rr.top "h_pnr_no" ≠ "")
    (hmiss : priceMissing (payFinalCtx rr dp vp).price = true ∨
      (payFinalCtx rr dp vp).wct_no = "") :
    (pay rr (ApiResp.ok dp) (ApiResp.ok vp)).payRequested = false ∧
    ∃ m, (pay rr (ApiResp.ok dp) (ApiResp.ok vp)).outcome = PayOutcome.err m := by
  obtain ⟨dq, vq, heq⟩ := pay_ok_eq rr dp vp hpnr
  rw [heq]
  exact payFinish_incomplete dq vq _ hmiss

/-- Witness for C4: a reservation response with only a confirmation
number and empty fallback responses leaves the amount unresolved. -/
theorem pay_incomplete_no_request_witness :
    (pay rr4 (ApiResp.ok emptyPayload) (ApiResp.ok emptyPayload)).payRequested
        = false ∧
    ∃ m, (pay rr4 (ApiResp.ok emptyPayload)
        (ApiResp.ok emptyPayload)).outcome = PayOutcome.err m :=
  pay_incomplete_no_request rr4 emptyPayload emptyPayload (by decide)
    (Or.inl (by decide))

/-- C2 counterexample: in `rrC2` the payable amount and `h_wct_no` are
present only inside a nested per-train leg whose embedded confirmation
number equals that of the reservation, and stage (1) does resolve both — yet
`pay` still queries both fallback endpoints (because the change-sequence
number and job sequence numbers remain unresolved), contradicting the
claim that no fallback query is issued. -/
theorem pay_nested_leg_counterexample :
    (payStage1Ctx rrC2).price = "5000" ∧
    (payStage1Ctx rrC2).wct_no = "W1" ∧
    pay rrC2 (ApiResp.ok emptyPayload) (ApiResp.ok emptyPayload) =
      ⟨true, true, true, PayOutcome.ok⟩ := by
  refine ⟨?_, ?_, ?_⟩ <;> decide

/-- C2 amended: `pay` skips both fallback endpoints precisely when stage
(1) leaves no context field missing; when the reservation response alone
(for instance through a nested matching leg) resolves the amount, the
transaction key, the change-sequence number and both job sequence
numbers, `pay` succeeds without querying either fallback endpoint. -/
theorem pay_stage1_complete_no_fallback (rr : PayPayload)
    (detailResp viewResp : ApiResp)
    (hpnr : itemGetS rr.top "h_pnr_no" ≠ "")
    (hdone : needContext (payStage1Ctx rr) = false) :
    pay rr detailResp viewResp = ⟨false, false, true, PayOutcome.ok⟩ := by
  have hb : (itemGetS rr.top "h_pnr_no" == "") = false := by
    simpa using hpnr
  simp only [payStage1Ctx] at hdone
  have hfields := hdone
  simp only [needContext, Bool.or_eq_false_iff] at hfields
  simp only [pay, payStage3, hb, Bool.false_eq_true, if_false, ite_false,
    hdone, payFinish, hfields.1.1.1.1, hfields.1.1.1.2]

/-- Witness for the amended C2 theorem: a nested matching leg carrying the
full payment context makes `pay` skip both fallback endpoints. -/
theorem pay_stage1_complete_no_fallback_witness :
    pay rrC2full (ApiResp.ok emptyPayload) (ApiResp.ok emptyPayload) =
      ⟨false, false, true, PayOutcome.ok⟩ :=
  pay_stage1_complete_no_fallback rrC2full (ApiResp.ok emptyPayload)
    (ApiResp.ok emptyPayload) (by decide) (by decide)
